import Mathlib

/-!
Formal model of the Dory public-parameter generation pipeline
(`generate-sxt-dory-params`, `src/main.rs`).

The pipeline derives a fixed 32-byte seed from the identifier string
`"SpaceAndTime"`, generates public parameters and a prover setup through an
external cryptographic library, persists them to two fixed-name files,
bundles the files into a gzip-compressed tar archive, and deletes the two
transient files on success.  The external library calls
(`PublicParameters::rand`, `ProverSetup::from`, `blitzar_handle`,
serialization) are modelled as opaque deterministic functions collected in a
`Crypto` record; filesystem and archive failures are injected through a
`FailSpec` record, and each run yields a `RunResult` describing the final
filesystem state, console output, exit kind and an ordered event trace
mirroring the program order of `main`.

Floating-point arithmetic in the size estimator is modelled as exact
rational arithmetic (all quantities involved are products of the decimal
literal 6.3 with powers of two, which `f64` computes exactly for every
practically reachable `nu`).
-/

/-- Byte sequence of the fixed identifying ASCII string, modelling
`"SpaceAndTime".bytes()` (all characters are ASCII, so each byte is the
character's code point). -/
def identifierBytes : List Nat :=
  "SpaceAndTime".data.map Char.toNat

/-- Seed derivation, modelling
`ident.bytes().chain(std::iter::repeat(0u8)).take(32)`:
the identifier bytes followed by an unbounded supply of zero bytes,
truncated to 32 bytes.  Appending 32 zeros before taking 32 is equivalent to
chaining an infinite zero iterator. -/
def deriveSeed (ident : List Nat) : List Nat :=
  (ident ++ List.replicate 32 0).take 32

/-- The concrete seed of the program: `deriveSeed` applied to the fixed
identifier, modelling the `seed_bytes` value in `main`. -/
def seedBytes : List Nat :=
  deriveSeed identifierBytes

/-- Size estimator, modelling `estimated_file_size` from `src/main.rs`:

```rust
fn estimated_file_size(nu: usize) -> f64 {
    let base_size = 6.3; // 6.3 MB for nu = 4
    if nu >= 4 {
        base_size * 2_f64.powi((nu as i32) - 4)
    } else {
        base_size
    }
}
```

The `f64` arithmetic is modelled over `ℚ` (exact for these values: a decimal
literal scaled by a power of two). -/
def estimated_file_size (nu : Nat) : ℚ :=
  let base_size : ℚ := 6.3
  if 4 ≤ nu then
    base_size * 2 ^ (nu - 4)
  else
    base_size

/-- The list of filler status messages, modelling `facts()` from
`src/main.rs` (string contents reproduced verbatim; `\x27` is the
apostrophe). -/
def facts : List String :=
  [ "The Sun is 330,330 times larger than Earth.\n"
  , "Volcano-ologists are experts in the study of volcanoes.\n"
  , "If you have trouble with simple counting, use the following mnemonic device: \none comes before two comes before 60 comes after 12 comes before \nsix trillion comes after 504. This will make your earlier counting difficulties\nseem like no big deal.\n"
  , "The average adult body contains half a pound of salt.\n"
  , "The first person to prove that cow\x27s milk is drinkable was very, very thirsty.\n"
  , "The atomic weight of Germanium is seven two point six four.\n"
  , "An ostrich\x27s eye is bigger than its brain. Its brain size is 59.26 mm,\nwhile its eye is 50.8 mm.\n"
  , "Humans can survive underwater. But not for very long.\n"
  , "Polymerase I polypeptide A is a human gene. Shortened as POLR1C.\n"
  , "Iguanas can stay underwater for twenty-eight point seven minutes.\n"
  , "The moon orbits the Earth every 27.32 days.\n"
  , "The billionth digit of Pi is 9.\n"
  , "A gallon of water weighs 8.34 pounds.\n"
  , "Hot water freezes quicker than cold water.\n"
  , "Honey does not spoil. Instead, it will crystalize.\n"
  , "A nanosecond lasts one billionth of a second.\n"
  , "According to Norse legend, thunder god Thor\x27s chariot was pulled across the\nsky by two goats.\n"
  , "Tungsten has the highest melting point of any metal, at 3,410 degrees Celsius.\n"
  , "The value of Pi is the ratio of any circle\x27s circumference to its diameter in\nEuclidean space.\n"
  , "In 1879, Sandford Fleming first proposed the adoption of worldwide\nstandardized time zones at the Royal Canadian Institute.\n"
  , "89% of magic tricks are not magic. Technically, they are sorcery.\nThe other 11% of magic tricks are probably also not magic.\n"
  , "The plural of surgeon general is surgeons general. The past tense of\nsurgeons general is surgeonsed general.\n"
  , "Edmund Hillary, the first person to climb Mount Everest,\ndid so accidentally while chasing a bird.\n"
  , "Diamonds are made when coal is put under intense pressure. Diamonds put under\nintense pressure become foam pellets, commonly used today as packing material.\n"
  , "Halley\x27s Comet can be viewed orbiting Earth every seventy-six years.\nFor the other seventy-five, it retreats to the heart of the sun,\nwhere it hibernates undisturbed.\n"
  , "In Greek myth, Prometheus stole fire from the Gods and gave it to humankind.\nThe jewelry he kept for himself.\n"
  , "Pants were invented by sailors in the sixteenth century to avoid Poseidon\x27s wrath.\n"
  , "William Shakespeare did not exist. His plays were masterminded in 1589 by\nFrancis Bacon, who used an Ouija board to conjure play-writing ghosts.\n"
  , "The automobile brake was not invented until 1895. Before this, someone had to\nremain in the car at all times, driving in circles until passengers\nreturned from their errands.\n"
  , "Before the Wright Brothers invented the airplane, anyone wanting to fly\nanywhere was required to eat 200 pounds of helium.\n"
  , "Before the invention of scrambled eggs in 1912, the typical breakfast was either\nwhole eggs still in the shell or scrambled rocks.\n"
  , "To make a photocopier, simply photocopy a mirror.\n"
  , "Fact: Gigabrain is very handsome.\n"
  , "Fact not found.\n"
  , "Error. Error. Error. File not found.\n"
  , "Error. Error. Error. Fact not found.\n"
  , "Warning, parameter corruption detec- Rats are regarded as the most handsome rodent.\n"
  ]

/-- Fixed prefix of every rotating status message, from the `format!` call
in the reporter thread. -/
def reporterHeader : String :=
  "Generating public parameters for the SxT network. This may take a long time, please wait...\n  Did you know? "

/-- One iteration of the reporter loop body: draw a raw random value `r`
from the thread-local RNG, reduce it to an index below `facts.length`
(modelling the contract of `gen_range(0..space_facts.len())`, which returns
a value in that half-open range), and look the fact up.  The lookup is
modelled with `List.get?` so that an out-of-bounds access would be visible
as `none` rather than hidden. -/
def reporterStep (r : Nat) : Option String :=
  (facts.get? (r % facts.length)).map (fun fact => reporterHeader ++ fact)

/-- Fixed relative path of the persisted public parameters
(`public_parameters.bin`). -/
def paramsFileName : String := "public_parameters.bin"

/-- Fixed relative path of the persisted blitzar handle
(`blitzar_handle.bin`). -/
def handleFileName : String := "blitzar_handle.bin"

/-- Fixed name of the compressed archive (`dory-params.tar.gz`). -/
def archiveFileName : String := "dory-params.tar.gz"

/-- Console line printed by the `Err` branch of the parameters save. -/
def saveFailedMsg : String := "Failed to save parameters, aborting."

/-- Console line printed after both transient files are removed. -/
def removedMsg : String := "Temporary .bin files removed."

/-- The external cryptographic capability, kept opaque: `P` is the type of
`PublicParameters`, `S` of `ProverSetup`, `H` of the blitzar handle, and `B`
the type of persisted file contents.  All five operations are deterministic
functions, mirroring the deterministic external contract. -/
structure Crypto (P S H B : Type) where
  /-- `PublicParameters::rand(nu, &mut ChaCha20Rng::from_seed(seed))`:
  a deterministic function of `nu` and the 32-byte seed. -/
  rand : Nat → List Nat → P
  /-- `ProverSetup::from(&public_parameters)`. -/
  setupFrom : P → S
  /-- `prover_setup.blitzar_handle()`. -/
  handleOf : S → H
  /-- Bytes written by `public_parameters.save_to_file`. -/
  paramsBytes : P → B
  /-- Bytes written by `blitzar_handle.write`. -/
  handleBytes : H → B

/-- Failure injection for the fallible filesystem steps of `main`, one flag
per failure site; `true` means the step fails on this run. -/
structure FailSpec where
  /-- `public_parameters.save_to_file` returns `Err`. -/
  saveParams : Bool
  /-- `File::create("dory-params.tar.gz")` fails (`expect` panics). -/
  createArchive : Bool
  /-- `append_path("public_parameters.bin")` fails (`expect` panics). -/
  appendParams : Bool
  /-- `append_path("blitzar_handle.bin")` fails (`expect` panics). -/
  appendHandle : Bool
  /-- `tar_builder.finish()` fails (`expect` panics). -/
  tarFinish : Bool
  /-- Writing the gzip trailer fails when the `GzEncoder` is dropped
  (the error is swallowed by the `Drop` implementation). -/
  gzipTrailer : Bool
  /-- `fs::remove_file("public_parameters.bin")` fails (`expect` panics). -/
  removeParams : Bool
  /-- `fs::remove_file("blitzar_handle.bin")` fails (`expect` panics). -/
  removeHandle : Bool
  deriving DecidableEq

/-- The run with every fallible step succeeding. -/
def noFail : FailSpec :=
  { saveParams := false, createArchive := false, appendParams := false
  , appendHandle := false, tarFinish := false, gzipTrailer := false
  , removeParams := false, removeHandle := false }

/-- Sites at which an `expect` call panics. -/
inductive PanicSite
  | createArchive | appendParams | appendHandle | tarFinish
  | removeParams | removeHandle
  deriving DecidableEq

/-- How the process ends: clean success, the reported-and-returned save
failure, or a panic at one of the `expect` sites. -/
inductive ExitKind
  | success
  | saveFailed
  | panicked (site : PanicSite)
  deriving DecidableEq

/-- Observable state of `dory-params.tar.gz`: the entries appended so far
(base name and contents), whether the tar terminator was written
(`tar_builder.finish()`), and whether the gzip stream was finalized (the
trailer written by the `GzEncoder`). -/
structure Archive (B : Type) where
  entries : List (String × B)
  tarFinalized : Bool
  gzipFinalized : Bool
  deriving DecidableEq

/-- Ordered events of a run, in the program order of `main`. -/
inductive Ev
  | generateParams
  | spawnReporter
  | deriveSetup
  | finishSpinner
  | writeParams
  | computeHandle
  | writeHandle
  | createArchive
  | appendParams
  | appendHandle
  | tarFinish
  | compressionComplete
  | removeParams
  | removeHandle
  | printRemoved
  | gzipFinalize
  | printSaveFailed
  deriving DecidableEq

/-- Final observable state of one run of `main`. -/
structure RunResult (B : Type) where
  /-- Log of the successful transient-file writes (name, contents), in
  order. -/
  writes : List (String × B)
  /-- Contents of `public_parameters.bin` at process exit (`none` if
  absent). -/
  fsParams : Option B
  /-- Contents of `blitzar_handle.bin` at process exit. -/
  fsHandle : Option B
  /-- State of `dory-params.tar.gz` at process exit. -/
  fsArchive : Option (Archive B)
  /-- Lines printed with `println!` (banner and size-estimate lines are
  elided: they carry no persisted data). -/
  console : List String
  /-- Status messages the reporter thread sets on the spinner, one per
  reporter wake; purely decorative terminal output. -/
  statusMsgs : List String
  /-- How the process ended. -/
  exit : ExitKind
  /-- Ordered event trace in program order. -/
  trace : List Ev
  deriving DecidableEq

/-- One run of `main` from `src/main.rs`, as a function of the opaque
cryptographic capability `c`, the injected failures `f`, the command-line
size parameter `nu`, and the stream `rr` of raw values drawn by the
reporter thread's independent `thread_rng()` (one per wake).

Program order mirrored from the source: generate `PublicParameters` from
the fixed seed; spawn the reporter thread; derive the `ProverSetup`; finish
the spinner; save the parameters (on `Err`: print the failure message and
return); write the blitzar handle; create the archive file; append both
transient files; finish the tar stream; print the compression-complete
message; remove both transient files; print the removal message; and, at
the end of the `Ok` block's scope, drop the tar builder and gzip encoder,
which is the point where the gzip trailer is actually written (errors
swallowed).  Each failing `expect` panics, ending the run at that point.
On the archive-step panic paths the exact bytes of the partially written
archive are unspecified, so the drop-time finalization attempts during
unwinding are not modelled there; on the removal-step panic paths the tar
stream is already complete and the drop-time gzip finalization is
modelled. -/
def mainRun {P S H B : Type} (c : Crypto P S H B) (f : FailSpec) (nu : Nat)
    (rr : List Nat) : RunResult B :=
  let seed := deriveSeed identifierBytes
  let params := c.rand nu seed
  let setup := c.setupFrom params
  let status := rr.map (fun r => (reporterStep r).getD "")
  let pre : List Ev := [.generateParams, .spawnReporter, .deriveSetup, .finishSpinner]
  if f.saveParams then
    { writes := [], fsParams := none, fsHandle := none, fsArchive := none
    , console := [saveFailedMsg], statusMsgs := status
    , exit := .saveFailed
    , trace := pre ++ [.writeParams, .printSaveFailed] }
  else
    let pB := c.paramsBytes params
    let hB := c.handleBytes (c.handleOf setup)
    let writes := [(paramsFileName, pB), (handleFileName, hB)]
    let t1 := pre ++ [.writeParams, .computeHandle, .writeHandle]
    if f.createArchive then
      { writes := writes, fsParams := some pB, fsHandle := some hB
      , fsArchive := none, console := [], statusMsgs := status
      , exit := .panicked .createArchive
      , trace := t1 ++ [.createArchive] }
    else if f.appendParams then
      { writes := writes, fsParams := some pB, fsHandle := some hB
      , fsArchive := some { entries := [], tarFinalized := false, gzipFinalized := false }
      , console := [], statusMsgs := status
      , exit := .panicked .appendParams
      , trace := t1 ++ [.createArchive, .appendParams] }
    else if f.appendHandle then
      { writes := writes, fsParams := some pB, fsHandle := some hB
      , fsArchive := some { entries := [(paramsFileName, pB)], tarFinalized := false, gzipFinalized := false }
      , console := [], statusMsgs := status
      , exit := .panicked .appendHandle
      , trace := t1 ++ [.createArchive, .appendParams, .appendHandle] }
    else if f.tarFinish then
      { writes := writes, fsParams := some pB, fsHandle := some hB
      , fsArchive := some { entries := [(paramsFileName, pB), (handleFileName, hB)], tarFinalized := false, gzipFinalized := false }
      , console := [], statusMsgs := status
      , exit := .panicked .tarFinish
      , trace := t1 ++ [.createArchive, .appendParams, .appendHandle, .tarFinish] }
    else
      let arch : Archive B :=
        { entries := [(paramsFileName, pB), (handleFileName, hB)]
        , tarFinalized := true, gzipFinalized := !f.gzipTrailer }
      let t2 := t1 ++ [.createArchive, .appendParams, .appendHandle, .tarFinish, .compressionComplete]
      if f.removeParams then
        { writes := writes, fsParams := some pB, fsHandle := some hB
        , fsArchive := some arch, console := [], statusMsgs := status
        , exit := .panicked .removeParams
        , trace := t2 ++ [.removeParams, .gzipFinalize] }
      else if f.removeHandle then
        { writes := writes, fsParams := none, fsHandle := some hB
        , fsArchive := some arch, console := [], statusMsgs := status
        , exit := .panicked .removeHandle
        , trace := t2 ++ [.removeParams, .removeHandle, .gzipFinalize] }
      else
        { writes := writes, fsParams := none, fsHandle := none
        , fsArchive := some arch, console := [removedMsg], statusMsgs := status
        , exit := .success
        , trace := t2 ++ [.removeParams, .removeHandle, .printRemoved, .gzipFinalize] }

/-- The `PublicParameters` value generated by a run: a function of `nu` and
the fixed derived seed only. -/
def genParams {P S H B : Type} (c : Crypto P S H B) (nu : Nat) : P :=
  c.rand nu (deriveSeed identifierBytes)

/-- Bytes persisted to `public_parameters.bin`. -/
def paramsOut {P S H B : Type} (c : Crypto P S H B) (nu : Nat) : B :=
  c.paramsBytes (genParams c nu)

/-- Bytes persisted to `blitzar_handle.bin`. -/
def handleOut {P S H B : Type} (c : Crypto P S H B) (nu : Nat) : B :=
  c.handleBytes (c.handleOf (c.setupFrom (genParams c nu)))

/-- A concrete instantiation of the opaque capability over `Nat`, used to
evaluate the model on closed inputs. -/
def cNat : Crypto Nat Nat Nat Nat :=
  { rand := fun nu seed => 1000 * nu + seed.foldl (fun a b => a + b) 0
  , setupFrom := fun p => p + 1
  , handleOf := fun s => 3 * s
  , paramsBytes := fun p => p
  , handleBytes := fun h => h }

/-- Failure specification where only the tar finalization fails. -/
def failTar : FailSpec := { noFail with tarFinish := true }

/-- Failure specification where only the drop-time gzip trailer write
fails (and is swallowed). -/
def gzipTrailerFails : FailSpec := { noFail with gzipTrailer := true }

/-- `f` with a successful save and archive but a failing removal of
`public_parameters.bin`. -/
def removeParamsFails (f : FailSpec) : FailSpec :=
  { f with
    saveParams := false
    createArchive := false
    appendParams := false
    appendHandle := false
    tarFinish := false
    removeParams := true }

/-- `f` with a successful save and archive, a successful removal of
`public_parameters.bin`, but a failing removal of `blitzar_handle.bin`. -/
def removeHandleFails (f : FailSpec) : FailSpec :=
  { f with
    saveParams := false
    createArchive := false
    appendParams := false
    appendHandle := false
    tarFinish := false
    removeParams := false
    removeHandle := true }

/-- Event trace of the save-failure (`Err`) branch. -/
def saveFailEvs : List Ev :=
  [.generateParams, .spawnReporter, .deriveSetup, .finishSpinner, .writeParams, .printSaveFailed]

/-- Event trace of a run that panics creating the archive file. -/
def createFailEvs : List Ev :=
  [.generateParams, .spawnReporter, .deriveSetup, .finishSpinner, .writeParams,
   .computeHandle, .writeHandle, .createArchive]

/-- Event trace of a run that panics appending the parameters file. -/
def appendParamsFailEvs : List Ev :=
  [.generateParams, .spawnReporter, .deriveSetup, .finishSpinner, .writeParams,
   .computeHandle, .writeHandle, .createArchive, .appendParams]

/-- Event trace of a run that panics appending the handle file. -/
def appendHandleFailEvs : List Ev :=
  [.generateParams, .spawnReporter, .deriveSetup, .finishSpinner, .writeParams,
   .computeHandle, .writeHandle, .createArchive, .appendParams, .appendHandle]

/-- Event trace of a run that panics finishing the tar stream. -/
def tarFinishFailEvs : List Ev :=
  [.generateParams, .spawnReporter, .deriveSetup, .finishSpinner, .writeParams,
   .computeHandle, .writeHandle, .createArchive, .appendParams, .appendHandle, .tarFinish]

/-- Event trace of a run in which save and archiving succeed. -/
def successEvs : List Ev :=
  [.generateParams, .spawnReporter, .deriveSetup, .finishSpinner, .writeParams,
   .computeHandle, .writeHandle, .createArchive, .appendParams, .appendHandle,
   .tarFinish, .compressionComplete, .removeParams, .removeHandle, .printRemoved,
   .gzipFinalize]

/-- C7: the size estimator returns 6.3 at `nu = 4`, the base value 6.3
unmodified for every `nu < 4`, and `6.3 * 2 ^ (nu - 4)` for every
`nu ≥ 4`; in particular it returns 12902.40 megabytes at `nu = 15`. -/
theorem estimated_file_size_contract (lo hi : Nat) (hlo : lo < 4) (hhi : 4 ≤ hi) :
    estimated_file_size 4 = 6.3 ∧
    estimated_file_size lo = 6.3 ∧
    estimated_file_size hi = 6.3 * 2 ^ (hi - 4) ∧
    estimated_file_size 15 = 12902.40 := by
  refine ⟨by norm_num [estimated_file_size], ?_, ?_, by norm_num [estimated_file_size]⟩
  · simp only [estimated_file_size]
    rw [if_neg (by omega)]
  · simp only [estimated_file_size]
    rw [if_pos hhi]

/-- Witness for `estimated_file_size_contract` at `lo = 2`, `hi = 15`. -/
theorem estimated_file_size_contract_w :
    estimated_file_size 4 = 6.3 ∧
    estimated_file_size 2 = 6.3 ∧
    estimated_file_size 15 = 6.3 * 2 ^ (15 - 4) ∧
    estimated_file_size 15 = 12902.40 :=
  estimated_file_size_contract 2 15 (by norm_num) (by norm_num)

/-- C8: the estimator satisfies the doubling law
`estimate(nu + 1) = 2 * estimate(nu)` for every `nu ≥ 4`, with base case
`estimate(4) = 6.3`. -/
theorem estimated_file_size_doubling (nu : Nat) (h : 4 ≤ nu) :
    estimated_file_size (nu + 1) = 2 * estimated_file_size nu ∧
    estimated_file_size 4 = 6.3 := by
  constructor
  · simp only [estimated_file_size]
    rw [if_pos h, if_pos (by omega : 4 ≤ nu + 1)]
    rw [(by omega : nu + 1 - 4 = (nu - 4) + 1), pow_succ]
    ring
  · norm_num [estimated_file_size]

/-- Witness for `estimated_file_size_doubling` at `nu = 4`. -/
theorem estimated_file_size_doubling_w :
    estimated_file_size 5 = 2 * estimated_file_size 4 ∧
    estimated_file_size 4 = 6.3 :=
  estimated_file_size_doubling 4 (by norm_num)

/-- C9: seed derivation yields exactly 32 bytes, namely the fixed
identifier's 12 bytes followed by 20 zero bytes (so the identifier is
never truncated), and equal identifiers always yield byte-identical
seeds. -/
theorem seed_derivation_spec (i₁ i₂ : List Nat) (h : i₁ = i₂) :
    seedBytes.length = 32 ∧
    seedBytes = identifierBytes ++ List.replicate 20 0 ∧
    seedBytes.take identifierBytes.length = identifierBytes ∧
    deriveSeed i₁ = deriveSeed i₂ := by
  subst h
  exact ⟨by decide, by decide, by decide, rfl⟩

/-- Witness for `seed_derivation_spec` at a concrete identifier. -/
theorem seed_derivation_spec_w :
    seedBytes.length = 32 ∧
    seedBytes = identifierBytes ++ List.replicate 20 0 ∧
    seedBytes.take identifierBytes.length = identifierBytes ∧
    deriveSeed [83] = deriveSeed [83] :=
  seed_derivation_spec [83] [83] rfl

/-- C10: the facts list is non-empty (it has 37 entries), every fact index
the reporter loop draws is strictly below its length, and the indexing
never fails (the lookup is always `some`). -/
theorem reporter_fact_index_safe :
    facts ≠ [] ∧ facts.length = 37 ∧
    ∀ r : Nat, r % facts.length < facts.length ∧ (reporterStep r).isSome = true := by
  refine ⟨by decide, rfl, fun r => ?_⟩
  have hlt : r % facts.length < facts.length := Nat.mod_lt _ (by decide)
  refine ⟨hlt, ?_⟩
  rw [reporterStep, List.get?_eq_get hlt]
  rfl

/-- C1: for a fixed `nu`, the persisted artifacts of a run are a
deterministic function of `nu` and the fixed derived seed, and are
independent of the reporter thread's own randomness: every observable
field except the decorative status messages coincides for two runs that
differ only in the reporter's random stream, and whenever the save
succeeds the two persisted files hold exactly
`paramsOut c nu` and `handleOut c nu`. -/
theorem persisted_params_deterministic {P S H B : Type} (c : Crypto P S H B)
    (f : FailSpec) (nu : Nat) (rr₁ rr₂ : List Nat) :
    (mainRun c f nu rr₁).writes = (mainRun c f nu rr₂).writes ∧
    (mainRun c f nu rr₁).fsParams = (mainRun c f nu rr₂).fsParams ∧
    (mainRun c f nu rr₁).fsHandle = (mainRun c f nu rr₂).fsHandle ∧
    (mainRun c f nu rr₁).fsArchive = (mainRun c f nu rr₂).fsArchive ∧
    (mainRun c f nu rr₁).console = (mainRun c f nu rr₂).console ∧
    (mainRun c f nu rr₁).exit = (mainRun c f nu rr₂).exit ∧
    (mainRun c { f with saveParams := false } nu rr₁).writes =
      [(paramsFileName, paramsOut c nu), (handleFileName, handleOut c nu)] := by
  obtain ⟨s, ca, ap, ah, tf, gz, rp, rh⟩ := f
  cases s <;> cases ca <;> cases ap <;> cases ah <;> cases tf <;> cases rp <;> cases rh <;>
    exact ⟨rfl, rfl, rfl, rfl, rfl, rfl, rfl⟩

/-- C2: when the parameters save fails, the run reports the failure on the
console and ends with the save-failure exit, no transient write is
recorded, neither a handle file nor an archive exists, and the trace shows
that the handle was never computed or written and no archive step was
attempted. -/
theorem save_failure_aborts_cleanly {P S H B : Type} (c : Crypto P S H B)
    (f : FailSpec) (nu : Nat) (rr : List Nat) :
    (mainRun c { f with saveParams := true } nu rr).exit = ExitKind.saveFailed ∧
    (mainRun c { f with saveParams := true } nu rr).console = [saveFailedMsg] ∧
    (mainRun c { f with saveParams := true } nu rr).writes = [] ∧
    (mainRun c { f with saveParams := true } nu rr).fsHandle = none ∧
    (mainRun c { f with saveParams := true } nu rr).fsArchive = none ∧
    Ev.computeHandle ∉ (mainRun c { f with saveParams := true } nu rr).trace ∧
    Ev.writeHandle ∉ (mainRun c { f with saveParams := true } nu rr).trace ∧
    Ev.createArchive ∉ (mainRun c { f with saveParams := true } nu rr).trace :=
  ⟨rfl, rfl, rfl, rfl, rfl,
   (by decide : Ev.computeHandle ∉ saveFailEvs),
   (by decide : Ev.writeHandle ∉ saveFailEvs),
   (by decide : Ev.createArchive ∉ saveFailEvs)⟩

/-- C3: when the save succeeds but any archiving step fails, the run ends
in a panic and both transient files are still present with their full
contents; no removal is ever attempted. -/
theorem archive_failure_preserves_transients {P S H B : Type} (c : Crypto P S H B)
    (f : FailSpec) (nu : Nat) (rr : List Nat)
    (hs : f.saveParams = false)
    (ha : (f.createArchive || f.appendParams || f.appendHandle || f.tarFinish) = true) :
    (∃ site, (mainRun c f nu rr).exit = ExitKind.panicked site) ∧
    (mainRun c f nu rr).fsParams = some (paramsOut c nu) ∧
    (mainRun c f nu rr).fsHandle = some (handleOut c nu) ∧
    Ev.removeParams ∉ (mainRun c f nu rr).trace ∧
    Ev.removeHandle ∉ (mainRun c f nu rr).trace := by
  obtain ⟨s, ca, ap, ah, tf, gz, rp, rh⟩ := f
  cases s
  · cases ca
    · cases ap
      · cases ah
        · cases tf
          · exact Bool.noConfusion ha
          · exact ⟨⟨_, rfl⟩, rfl, rfl,
              (by decide : Ev.removeParams ∉ tarFinishFailEvs),
              (by decide : Ev.removeHandle ∉ tarFinishFailEvs)⟩
        · exact ⟨⟨_, rfl⟩, rfl, rfl,
            (by decide : Ev.removeParams ∉ appendHandleFailEvs),
            (by decide : Ev.removeHandle ∉ appendHandleFailEvs)⟩
      · exact ⟨⟨_, rfl⟩, rfl, rfl,
          (by decide : Ev.removeParams ∉ appendParamsFailEvs),
          (by decide : Ev.removeHandle ∉ appendParamsFailEvs)⟩
    · exact ⟨⟨_, rfl⟩, rfl, rfl,
        (by decide : Ev.removeParams ∉ createFailEvs),
        (by decide : Ev.removeHandle ∉ createFailEvs)⟩
  · exact Bool.noConfusion hs

/-- Witness for `archive_failure_preserves_transients`: tar finalization
fails on the concrete `Nat` instantiation. -/
theorem archive_failure_preserves_transients_w :
    (∃ site, (mainRun cNat failTar 15 [7]).exit = ExitKind.panicked site) ∧
    (mainRun cNat failTar 15 [7]).fsParams = some (paramsOut cNat 15) ∧
    (mainRun cNat failTar 15 [7]).fsHandle = some (handleOut cNat 15) ∧
    Ev.removeParams ∉ (mainRun cNat failTar 15 [7]).trace ∧
    Ev.removeHandle ∉ (mainRun cNat failTar 15 [7]).trace :=
  archive_failure_preserves_transients cNat failTar 15 [7] rfl rfl

/-- C4: a fully successful run exits successfully leaving only the
finalized archive (neither transient file remains), each removal happens
exactly once and only after the tar stream is finished, and a run whose
only failing step is one of the two removals does not exit
successfully. -/
theorem successful_run_cleanup_invariant {P S H B : Type} (c : Crypto P S H B)
    (f : FailSpec) (nu : Nat) (rr : List Nat) :
    (mainRun c noFail nu rr).exit = ExitKind.success ∧
    (mainRun c noFail nu rr).fsParams = none ∧
    (mainRun c noFail nu rr).fsHandle = none ∧
    (mainRun c noFail nu rr).fsArchive =
      some { entries := [(paramsFileName, paramsOut c nu), (handleFileName, handleOut c nu)]
           , tarFinalized := true, gzipFinalized := true } ∧
    (mainRun c noFail nu rr).trace.count Ev.removeParams = 1 ∧
    (mainRun c noFail nu rr).trace.count Ev.removeHandle = 1 ∧
    (mainRun c noFail nu rr).trace.indexOf Ev.tarFinish <
      (mainRun c noFail nu rr).trace.indexOf Ev.removeParams ∧
    (mainRun c (removeParamsFails f) nu rr).exit ≠ ExitKind.success ∧
    (mainRun c (removeHandleFails f) nu rr).exit ≠ ExitKind.success :=
  ⟨rfl, rfl, rfl, rfl,
   (by decide : successEvs.count Ev.removeParams = 1),
   (by decide : successEvs.count Ev.removeHandle = 1),
   (by decide : successEvs.indexOf Ev.tarFinish < successEvs.indexOf Ev.removeParams),
   (by decide : ExitKind.panicked PanicSite.removeParams ≠ ExitKind.success),
   (by decide : ExitKind.panicked PanicSite.removeHandle ≠ ExitKind.success)⟩

/-- C5: with every step succeeding except the drop-time gzip trailer
write, the run still exits successfully with the removal message printed,
both transient files deleted, and an archive whose compression stream was
never finalized; moreover even in a fully successful run the gzip
finalization event comes only after the compression-complete message and
after both removals. -/
theorem gzip_finalization_after_success {P S H B : Type} (c : Crypto P S H B)
    (nu : Nat) (rr : List Nat) :
    (mainRun c gzipTrailerFails nu rr).exit = ExitKind.success ∧
    (mainRun c gzipTrailerFails nu rr).console = [removedMsg] ∧
    (mainRun c gzipTrailerFails nu rr).fsParams = none ∧
    (mainRun c gzipTrailerFails nu rr).fsHandle = none ∧
    (mainRun c gzipTrailerFails nu rr).fsArchive =
      some { entries := [(paramsFileName, paramsOut c nu), (handleFileName, handleOut c nu)]
           , tarFinalized := true, gzipFinalized := false } ∧
    (mainRun c noFail nu rr).trace.indexOf Ev.compressionComplete <
      (mainRun c noFail nu rr).trace.indexOf Ev.gzipFinalize ∧
    (mainRun c noFail nu rr).trace.indexOf Ev.removeParams <
      (mainRun c noFail nu rr).trace.indexOf Ev.gzipFinalize ∧
    (mainRun c noFail nu rr).trace.indexOf Ev.removeHandle <
      (mainRun c noFail nu rr).trace.indexOf Ev.gzipFinalize :=
  ⟨rfl, rfl, rfl, rfl, rfl,
   (by decide : successEvs.indexOf Ev.compressionComplete < successEvs.indexOf Ev.gzipFinalize),
   (by decide : successEvs.indexOf Ev.removeParams < successEvs.indexOf Ev.gzipFinalize),
   (by decide : successEvs.indexOf Ev.removeHandle < successEvs.indexOf Ev.gzipFinalize)⟩

/-- C6 (amended): in every run the reporter thread is spawned after the
public-parameters generation call and immediately before the prover-setup
derivation, and the run's persisted outputs and exit do not depend on the
reporter's random stream. -/
theorem reporter_spawn_before_derivation {P S H B : Type} (c : Crypto P S H B)
    (f : FailSpec) (nu : Nat) (rr : List Nat) :
    (∃ rest, (mainRun c f nu rr).trace =
      Ev.generateParams :: Ev.spawnReporter :: Ev.deriveSetup :: rest) ∧
    (mainRun c f nu rr).exit = (mainRun c f nu []).exit ∧
    (mainRun c f nu rr).writes = (mainRun c f nu []).writes ∧
    (mainRun c f nu rr).fsParams = (mainRun c f nu []).fsParams ∧
    (mainRun c f nu rr).fsArchive = (mainRun c f nu []).fsArchive := by
  obtain ⟨s, ca, ap, ah, tf, gz, rp, rh⟩ := f
  cases s <;> cases ca <;> cases ap <;> cases ah <;> cases tf <;> cases rp <;> cases rh <;>
    exact ⟨⟨_, rfl⟩, rfl, rfl, rfl, rfl⟩

/-- C6 (counterexample to the claim as stated): on a concrete run the
reporter spawn event does not precede the public-parameters generation
event; generation is the first event and the spawn only the second. -/
theorem reporter_spawn_after_generation_cex :
    ¬ ((mainRun cNat noFail 15 []).trace.indexOf Ev.spawnReporter <
       (mainRun cNat noFail 15 []).trace.indexOf Ev.generateParams) ∧
    (mainRun cNat noFail 15 []).trace.indexOf Ev.generateParams = 0 ∧
    (mainRun cNat noFail 15 []).trace.indexOf Ev.spawnReporter = 1 := by decide
